import Mathlib

/-!
Shallow embedding of the wtf-cosmos-js chain core (src/blockchain/Blockchain.js,
src/blockchain/Block.js, src/blockchain/Transaction.js, src/consensus/ProofOfWork.js,
src/consensus/Validator.js, src/governance/Proposal.js, src/governance/Voting.js)
together with theorems settling the frozen claims about it.

JavaScript runtime values are modelled explicitly where the code exercises their
dynamic behaviour: missing configuration keys read as `undefined`, arithmetic on
`undefined` produces `NaN` (every comparison with `NaN` is false), and object
arguments passed to positional parameters land in the first parameter slot.
The external SHA-256 capability is modelled as an opaque string function `H`;
`JSON.stringify` of a transaction (used only for its `.length` in the block-size
budget) is modelled as an opaque size function `sz`.
-/

namespace WtfCosmos

/-- Primitive JavaScript value for dynamically typed fields (the transaction `type`
field holds a string normally but the number `0` on the code's reward path). -/
inductive JsPrim where
  | str (s : String)
  | num (n : Int)
  | undef
deriving DecidableEq, Repr

/-- JavaScript value for the block `timestamp` field, which receives a plain number
normally but a whole options object on the code's constructor-mismatch paths. -/
inductive JsVal where
  | num (n : Int)
  | str (s : String)
  | obj
  | nullv
  | undef
deriving DecidableEq, Repr

/-- JavaScript number-or-NaN: `none` stands for `NaN` (or `undefined` used in
arithmetic, which coerces to `NaN`). All values occurring in the program are
integral, so an `Int` payload is exact. -/
abbrev JNum := Option Int

/-- NaN-propagating addition. -/
def jadd : JNum → JNum → JNum
  | some a, some b => some (a + b)
  | _, _ => none

/-- NaN-propagating subtraction. -/
def jsub : JNum → JNum → JNum
  | some a, some b => some (a - b)
  | _, _ => none

/-- JavaScript `<` on numbers: any comparison involving NaN is false. -/
def jltB : JNum → JNum → Bool
  | some a, some b => a < b
  | _, _ => false

/-- Truthiness of a nullable string (`null`/`undefined` and the empty string are falsy). -/
def jsTruthy : Option String → Bool
  | none => false
  | some s => s ≠ ""

/-- Truthiness of a `JsVal` (objects are truthy, `null`/`undefined` falsy, `0` and `""` falsy). -/
def jsValTruthy : JsVal → Bool
  | .num n => n ≠ 0
  | .str s => s ≠ ""
  | .obj => true
  | .nullv => false
  | .undef => false

/-- JavaScript subtraction on two dynamic values: number minus number is exact,
anything else (object, null-mix, undefined) yields NaN. -/
def jsValSub : JsVal → JsVal → JNum
  | .num a, .num b => some (a - b)
  | _, _ => none

/-- Association-list read with JavaScript `Map.get(k) || 0` semantics. -/
def alGet {α : Type} [BEq α] : List (α × Int) → α → Int
  | [], _ => 0
  | p :: rest, k => if p.1 == k then p.2 else alGet rest k

/-- Association-list write with JavaScript `Map.set` semantics (overwrite in place,
else append). -/
def alSet {α : Type} [BEq α] : List (α × Int) → α → Int → List (α × Int)
  | [], k, v => [(k, v)]
  | p :: rest, k, v => if p.1 == k then (k, v) :: rest else p :: alSet rest k v

/-! ## Transaction (src/blockchain/Transaction.js) -/

/-- Transaction record. `dataStr` holds `JSON.stringify(this.data)`, the only use the
embedded code makes of the opaque `data` payload. -/
structure Transaction where
  id : String
  fromAddress : Option String
  toAddress : Option String
  amount : Int
  type : JsPrim
  dataStr : String
  timestamp : Int
  signature : String
  hash : String
  fee : Int
  nonce : Int
deriving DecidableEq, Repr

/-- Fee schedule from `Transaction.calculateFee`: base fee 1 times a per-type
multiplier (unknown keys, including the number `0`, fall back to 1 via `|| 1`)
plus `Math.ceil(dataSize / 100)`. -/
def Transaction.calculateFee (type : JsPrim) (dataStr : String) : Int :=
  let baseFee : Int := 1
  let multiplier : Int :=
    match type with
    | .str "transfer" => 1
    | .str "delegate" => 2
    | .str "undelegate" => 2
    | .str "vote" => 1
    | .str "create_validator" => 5
    | .str "edit_validator" => 3
    | .str "submit_proposal" => 10
    | _ => 1
  let dateFee : Int := (dataStr.length + 99) / 100
  baseFee * multiplier + dateFee

/-- The `Transaction` constructor. `id` comes from `generateTransactionId()` and
`now` from `getCurrentTimestamp()`, both passed in as parameters here. -/
def Transaction.create (id : String) (now : Int) (fromAddress toAddress : Option String)
    (amount : Int) (type : JsPrim) (dataStr : String) : Transaction :=
  { id := id, fromAddress := fromAddress, toAddress := toAddress, amount := amount
    type := type, dataStr := dataStr, timestamp := now, signature := "", hash := ""
    fee := Transaction.calculateFee type dataStr, nonce := 0 }

/-- Canonical rendering of a nullable string field. -/
def optCanon : Option String → String
  | none => "null"
  | some s => "s:" ++ s

/-- Canonical rendering of a `JsPrim` field. -/
def primCanon : JsPrim → String
  | .str s => "s:" ++ s
  | .num n => "n:" ++ toString n
  | .undef => "undefined"

/-- Canonical serialization of the fields hashed by `Transaction.calculateHash`
(id, fromAddress, toAddress, amount, type, data, timestamp, fee, nonce — the stored
`hash` and `signature` are excluded). Stands in for `JSON.stringify` of that record. -/
def Transaction.canonical (tx : Transaction) : String :=
  String.intercalate "|" [tx.id, optCanon tx.fromAddress, optCanon tx.toAddress,
    toString tx.amount, primCanon tx.type, tx.dataStr, toString tx.timestamp,
    toString tx.fee, toString tx.nonce]

/-- `Transaction.calculateHash`: SHA-256 (opaque `H`) of the canonical fields. -/
def Transaction.calculateHash (H : String → String) (tx : Transaction) : String :=
  H (Transaction.canonical tx)

/-- `Transaction.isValid`. Mirrors the source exactly: protocol-minted transactions
(`fromAddress === null`) are valid iff amount is positive and the recipient truthy;
otherwise the fields must be truthy, the amount positive, the signature non-empty and
the recomputed hash equal to the stored hash — after which the code returns `true`
WITHOUT invoking any signature verification (its comment says the check is skipped
in this simplified version). -/
def Transaction.isValid (H : String → String) (tx : Transaction) : Bool :=
  match tx.fromAddress with
  | none => decide (0 < tx.amount) && jsTruthy tx.toAddress
  | some f =>
    if ¬ jsTruthy (some f) ∨ ¬ jsTruthy tx.toAddress ∨ tx.amount ≤ 0 then false
    else if tx.signature = "" then false
    else if Transaction.calculateHash H tx ≠ tx.hash then false
    else true

/-- `Transaction.signTransaction` after a successful wallet/address check: stores the
recomputed hash, then the wallet's signature over it (the signature string itself is
produced by the external signer capability and passed in here). -/
def Transaction.signTransaction (H : String → String) (sig : String)
    (tx : Transaction) : Transaction :=
  { tx with hash := Transaction.calculateHash H tx, signature := sig }

/-! ## Block (src/blockchain/Block.js) -/

/-- Block record. `difficulty` is a `JsPrim` because the constructor initializes it
from `config.BLOCKCHAIN.DIFFICULTY`, a key that does not exist in src/config.js
(which defines `INITIAL_DIFFICULTY` instead), so every constructed block carries
`difficulty = undefined`. `timestamp` is a `JsVal` because both call sites in
Blockchain.js pass a whole options object into the positional `timestamp` slot. -/
structure Block where
  id : String
  timestamp : JsVal
  transactions : List Transaction
  previousHash : String
  hash : String
  nonce : Int
  difficulty : JsPrim
  validator : Option String
  height : Int
  gasUsed : Int
  gasLimit : Int
  transactionCount : Int
  merkleRoot : String
  signature : String
deriving DecidableEq, Repr

/-- One pairwise-concatenation pass of the Merkle fold: `H(left + right)` with the
odd tail duplicated (`hashes[i + 1] || hashes[i]`). -/
def merklePass (H : String → String) : List String → List String
  | [] => []
  | [a] => [H (a ++ a)]
  | a :: b :: rest => H (a ++ b) :: merklePass H rest

/-- The `while (hashes.length > 1)` fold of `calculateMerkleRoot`; the fuel is the
initial list length, which bounds the number of halving passes. -/
def merkleFoldAux (H : String → String) : Nat → List String → String
  | _, [] => ""
  | _, [a] => a
  | 0, l => l.headD ""
  | fuel + 1, l => merkleFoldAux H fuel (merklePass H l)

/-- `Block.calculateMerkleRoot`: `H("empty")` for zero transactions, else the pairwise
fold over the per-transaction hashes (`tx.hash || tx.calculateHash()` — an empty
stored hash string is falsy, so it is recomputed). -/
def Block.calculateMerkleRoot (H : String → String) (txs : List Transaction) : String :=
  if txs.isEmpty then H "empty"
  else merkleFoldAux H (txs.length)
    (txs.map (fun tx => if tx.hash ≠ "" then tx.hash else Transaction.calculateHash H tx))

/-- Canonical serialization of the fields hashed by `Block.calculateHash`
(id, timestamp, previousHash, merkleRoot, validator, height, nonce, difficulty;
the transaction list enters only through the Merkle root, and the stored hash and
signature are excluded). `JSON.stringify` drops keys whose value is `undefined`,
which `primCanon`/`jsValCanon` render explicitly, preserving injectivity. -/
def jsValCanon : JsVal → String
  | .num n => "n:" ++ toString n
  | .str s => "s:" ++ s
  | .obj => "object"
  | .nullv => "null"
  | .undef => "undefined"

/-- Canonical block-header string fed to the hash. -/
def Block.canonical (b : Block) : String :=
  String.intercalate "|" [b.id, jsValCanon b.timestamp, b.previousHash, b.merkleRoot,
    optCanon b.validator, toString b.height, toString b.nonce, primCanon b.difficulty]

/-- `Block.calculateHash`: SHA-256 (opaque `H`) of the canonical header fields. -/
def Block.calculateHash (H : String → String) (b : Block) : String :=
  H (Block.canonical b)

/-- The `Block` constructor, with its POSITIONAL parameter list
`(timestamp, transactions, previousHash = '', validator = null)`. `none` for an
optional argument means the JavaScript caller supplied `undefined` there, which
selects the default. `id` comes from `generateBlockId()` and `now` from
`getCurrentTimestamp()` (used when the timestamp argument is falsy). -/
def Block.create (H : String → String) (id : String) (now : Int) (timestampArg : JsVal)
    (transactionsArg : Option (List Transaction)) (previousHashArg : Option String)
    (validatorArg : Option String) : Block :=
  let txs := transactionsArg.getD []
  { id := id
    timestamp := if jsValTruthy timestampArg then timestampArg else .num now
    transactions := txs
    previousHash := previousHashArg.getD ""
    hash := ""
    nonce := 0
    difficulty := .undef
    validator := validatorArg
    height := 0
    gasUsed := 0
    gasLimit := 10000000
    transactionCount := txs.length
    merkleRoot := Block.calculateMerkleRoot H txs
    signature := "" }

/-- A string of `n` zeros — the proof-of-work target `Array(difficulty + 1).join('0')`. -/
def zerosStr (n : Nat) : String := String.mk (List.replicate n '0')

/-- `Block.isValid`, including the dynamic behaviour of its `try/catch`: with a
numeric non-negative difficulty the checks run in source order (hash, target, Merkle
root, per-transaction validity; the transaction-count bound compares against the
missing config key `MAX_TRANSACTIONS_PER_BLOCK`, i.e. `length > undefined`, which is
always false). With `difficulty` undefined — the case for every block this program
constructs — `Array(difficulty + 1)` throws a RangeError that the catch turns into
`false`; likewise for difficulty below -1. -/
def Block.isValid (H : String → String) (b : Block) : Bool :=
  if Block.calculateHash H b ≠ b.hash then false
  else
    match b.difficulty with
    | .num d =>
      if d ≤ -2 then false
      else if ¬ ((b.hash.take d.toNat) = zerosStr d.toNat) then false
      else if Block.calculateMerkleRoot H b.transactions ≠ b.merkleRoot then false
      else b.transactions.all (fun tx => Transaction.isValid H tx)
    | _ => false

/-! ## Blockchain (src/blockchain/Blockchain.js) -/

/-- Balance ledger: `Map` from address to number. The key type is `Option String`
because `balances.get(transaction.toAddress)` is reached with `toAddress = null` for
vote-type transactions, and a JavaScript `Map` happily keys on `null`. -/
abbrev Balances := List (Option String × Int)

/-- Mutable state of the `Blockchain` class (the float statistics `averageBlockTime`
and `hashRate` are omitted; `totalSupply`, `totalBlocks` and `totalTransactions` are
kept from `this.stats`). -/
structure ChainState where
  chain : List Block
  pendingTransactions : List Transaction
  miningReward : Int
  difficulty : Int
  blockTime : Int
  maxBlockSize : Int
  balances : Balances
  totalSupply : Int
  totalBlocks : Int
  totalTransactions : Int
  isMining : Bool
  currentMiner : Option String
deriving DecidableEq, Repr

/-- The bootstrap address seeded by `createGenesisBlock`. -/
def genesisAddress : String := "wtf1genesis000000000000000000000000"

/-- `createGenesisBlock` builds
`new Block({index: 0, timestamp: Date.now(), transactions: [], previousHash: '0', validator: 'genesis'})`.
The `Block` constructor is positional, so the whole options object lands in the
`timestamp` parameter (an object, hence truthy) and `transactions`, `previousHash`
and `validator` are `undefined`, taking their defaults `[]`, `''` and `null`. The
genesis hash is then stored from `calculateHash()`. -/
def createGenesisBlock (H : String → String) (gid : String) (now : Int) : Block :=
  let g := Block.create H gid now JsVal.obj none none none
  { g with hash := Block.calculateHash H g }

/-- The `Blockchain` constructor with an empty `config` argument (all defaults),
followed by `createGenesisBlock()`: seeds the bootstrap address with 1,000,000 and
sets `totalSupply` and `totalBlocks` accordingly. -/
def Blockchain.init (H : String → String) (gid : String) (now : Int) : ChainState :=
  { chain := [createGenesisBlock H gid now]
    pendingTransactions := []
    miningReward := 50
    difficulty := 4
    blockTime := 60000
    maxBlockSize := 1048576
    balances := [(some genesisAddress, 1000000)]
    totalSupply := 1000000
    totalBlocks := 1
    totalTransactions := 0
    isMining := false
    currentMiner := none }

/-- `getLatestBlock().hash`; the chain is non-empty from construction on (an empty
chain would make the JavaScript access throw, modelled by the `""` default). -/
def latestBlockHash (st : ChainState) : String :=
  ((st.chain.getLast?).map (fun b => b.hash)).getD ""

/-- `isTransactionExists`: scans the transactions embedded in CONFIRMED blocks only —
the pending pool is never consulted. -/
def isTransactionExists (chain : List Block) (transactionHash : String) : Bool :=
  chain.any (fun b => b.transactions.any (fun t => t.hash == transactionHash))

/-- `validateTransaction`: basic fields truthy, positive amount, `tx.isValid()`, and
no duplicate among confirmed blocks. Note that NO balance check occurs here. -/
def validateTransaction (H : String → String) (st : ChainState) (tx : Transaction) : Bool :=
  jsTruthy tx.fromAddress && jsTruthy tx.toAddress && decide (0 < tx.amount)
    && Transaction.isValid H tx && !(isTransactionExists st.chain tx.hash)

/-- `addTransaction` (mempool admission): validate, check the sender balance against
`amount + fee`, check the 1000-entry mempool cap, then push. All rejections are
caught and reported as `false` with the state unchanged. -/
def addTransaction (H : String → String) (st : ChainState) (tx : Transaction) :
    Bool × ChainState :=
  if ¬ (validateTransaction H st tx) then (false, st)
  else if alGet st.balances tx.fromAddress < tx.amount + tx.fee then (false, st)
  else if 1000 ≤ st.pendingTransactions.length then (false, st)
  else (true, { st with pendingTransactions := st.pendingTransactions ++ [tx] })

/-- Stable insertion step for the fee-descending sort
`[...pendingTransactions].sort((a, b) => b.fee - a.fee)` (ECMAScript sort is stable:
equal fees keep arrival order). -/
def insertByFeeDesc (t : Transaction) : List Transaction → List Transaction
  | [] => [t]
  | x :: xs => if t.fee < x.fee then x :: insertByFeeDesc t xs else t :: x :: xs

/-- Greedy body of `selectTransactionsForBlock`: walk the fee-sorted list, break as
soon as the cumulative serialized size would exceed `maxBlockSize`, and take each
transaction that passes `validateTransaction` (which re-checks duplicates and
structure but reads NO balances). `sz` models `JSON.stringify(transaction).length`. -/
def selectGo (H : String → String) (sz : Transaction → Int) (st : ChainState) :
    List Transaction → Int → List Transaction
  | [], _ => []
  | t :: rest, blockSize =>
    if st.maxBlockSize < blockSize + sz t then []
    else if validateTransaction H st t then t :: selectGo H sz st rest (blockSize + sz t)
    else selectGo H sz st rest blockSize

/-- `selectTransactionsForBlock`. -/
def selectTransactionsForBlock (H : String → String) (sz : Transaction → Int)
    (st : ChainState) : List Transaction :=
  selectGo H sz st (st.pendingTransactions.foldr insertByFeeDesc []) 0

/-- Per-transaction step of `updateBalances`: debit sender of `amount + fee` when the
sender is truthy, credit recipient with `amount`, and bump `totalSupply` when the
type is (strictly) the string `'mining_reward'`. -/
def applyTx (st : ChainState) (t : Transaction) : ChainState :=
  let fromBalance := alGet st.balances t.fromAddress
  let st1 :=
    if jsTruthy t.fromAddress then
      { st with balances := alSet st.balances t.fromAddress (fromBalance - t.amount - t.fee) }
    else st
  let toBalance := alGet st1.balances t.toAddress
  let st2 := { st1 with balances := alSet st1.balances t.toAddress (toBalance + t.amount) }
  if t.type == JsPrim.str "mining_reward" then
    { st2 with totalSupply := st2.totalSupply + t.amount }
  else st2

/-- `updateBalances` over a transaction list. -/
def updateBalances (txs : List Transaction) (st : ChainState) : ChainState :=
  txs.foldl applyTx st

/-- `removePendingTransactions`: drop from the mempool every transaction whose hash
is among the processed non-reward hashes. -/
def removePendingTransactions (processed : List Transaction) (st : ChainState) :
    ChainState :=
  let processedHashes :=
    (processed.filter (fun t => ¬ (t.type == JsPrim.str "mining_reward"))).map
      (fun t => t.hash)
  { st with pendingTransactions :=
      st.pendingTransactions.filter (fun tx => ¬ (processedHashes.contains tx.hash)) }

/-- `validateBlock`: `block.isValid()`, then the previous-hash linkage. The third
source check calls `this.proofOfWork.validateProof`, a method that does not exist on
`ProofOfWork` (it is named `verifyProofOfWork`), so reaching it would throw a
TypeError; it is unreachable because `Block.isValid` is false for every block this
program constructs (their `difficulty` is undefined), so the branch is rendered as
`false`. -/
def validateBlock (H : String → String) (st : ChainState) (b : Block) : Bool :=
  if ¬ (Block.isValid H b) then false
  else if b.previousHash ≠ latestBlockHash st then false
  else false

/-- Error outcomes of `minePendingTransactions`. -/
inductive MineErr where
  | alreadyMining
  | invalidBlock
deriving DecidableEq, Repr

/-- `proofOfWork.mineBlock`: the nonce search increments `block.nonce` and stores
`block.hash = block.calculateHash()` each attempt until the target test passes. The
number of increments performed by the search is abstracted as `powNonce`; the stored
hash is the recomputed hash at the final nonce, which is all the downstream
validation reads. -/
def powMine (H : String → String) (powNonce : Int) (b : Block) : Block :=
  let b1 := { b with nonce := b.nonce + powNonce }
  { b1 with hash := Block.calculateHash H b1 }

/-- `minePendingTransactions`. Fails with `AlreadyMining` when the flag is up;
otherwise raises the flag, builds the reward transaction
`new Transaction(null, minerAddress, this.miningReward, 0, 'mining_reward')` —
the literal `0` lands in the `type` parameter and the string `'mining_reward'` in
`data` — selects and appends, then builds
`new Block({index, timestamp, transactions, previousHash, validator})` whose options
object again lands in the positional `timestamp` slot (so the block has no
transactions and `previousHash = ''`), runs the PoW search, validates, and on
failure throws after the `finally` clause clears `isMining`/`currentMiner`. On the
(here unreachable) success path it appends the block, applies `updateBalances` to
the SELECTED list, removes those from the mempool and updates the counters. -/
def minePendingTransactions (H : String → String) (sz : Transaction → Int)
    (rid bid : String) (now : Int) (powNonce : Int) (st : ChainState)
    (minerAddress : String) : Except MineErr Block × ChainState :=
  if st.isMining then (Except.error MineErr.alreadyMining, st)
  else
    let st1 := { st with isMining := true, currentMiner := some minerAddress }
    let rewardTransaction := Transaction.create rid now none (some minerAddress)
      st1.miningReward (JsPrim.num 0) "\"mining_reward\""
    let selected := selectTransactionsForBlock H sz st1 ++ [rewardTransaction]
    let newBlock := Block.create H bid now JsVal.obj none none none
    let mined := powMine H powNonce newBlock
    if ¬ (validateBlock H st1 mined) then
      (Except.error MineErr.invalidBlock, { st1 with isMining := false, currentMiner := none })
    else
      let st2 := { st1 with chain := st1.chain ++ [mined] }
      let st3 := updateBalances selected st2
      let st4 := removePendingTransactions selected st3
      let st5 := { st4 with totalBlocks := st4.totalBlocks + 1,
                            totalTransactions := st4.totalTransactions + mined.transactions.length }
      (Except.ok mined, { st5 with isMining := false, currentMiner := none })

/-- `adjustDifficulty`: every 10 blocks, compare the total time spanned by the last
10 blocks (`slice(-10)`) against `blockTime * 10`. The increment branch has NO upper
cap; the decrement branch floors at 1. Non-numeric timestamps (every block built by
this program stores the options object there) subtract to NaN, whose comparisons are
false, leaving the difficulty unchanged. The out-of-range index access for a chain
shorter than 10 cannot happen under the `length % 10 == 0 && length > 0` guard. -/
def adjustDifficulty (st : ChainState) : ChainState :=
  if st.chain.length % 10 = 0 ∧ 0 < st.chain.length then
    let lastTen := st.chain.drop (st.chain.length - 10)
    match lastTen.get? 9, lastTen.get? 0 with
    | some b9, some b0 =>
      let expectedTime : Int := st.blockTime * 10
      match jsValSub b9.timestamp b0.timestamp with
      | some totalTime =>
        if (totalTime : ℚ) < (expectedTime : ℚ) / 2 then
          { st with difficulty := st.difficulty + 1 }
        else if (expectedTime : ℚ) * 2 < (totalTime : ℚ) then
          { st with difficulty := max 1 (st.difficulty - 1) }
        else st
      | none => st
    | _, _ => st
  else st

/-- `ProofOfWork.calculateDifficulty`. The engine's own `this.difficulty` is a `JNum`
because its constructor reads `config.BLOCKCHAIN.DIFFICULTY`, which is absent from
src/config.js (hence undefined); `Math.min(undefined + 1, 10)` and
`Math.max(undefined - 1, 1)` are NaN, modelled by `Option.map` on `none`.
`targetTime` is `config.BLOCKCHAIN.BLOCK_TIME` (5000 by default; the `parseInt(...)
|| 5000` default keeps it a positive number, so the rational division is exact).
With fewer than 10 recent blocks, or a NaN inter-block time, the difficulty is
returned unchanged. -/
def calculateDifficulty (d : JNum) (targetTime : Int) (recentBlocks : List Block) : JNum :=
  if recentBlocks.length < 2 then d
  else if 10 ≤ recentBlocks.length then
    match recentBlocks.get? (recentBlocks.length - 10), recentBlocks.getLast? with
    | some firstBlock, some lastBlock =>
      match jsValSub lastBlock.timestamp firstBlock.timestamp with
      | some t =>
        let actualOverTarget : ℚ := ((t : ℚ) / 9) / (targetTime : ℚ)
        if actualOverTarget < 1 / 2 then d.map (fun x => min (x + 1) 10)
        else if 2 < actualOverTarget then d.map (fun x => max (x - 1) 1)
        else d
      | none => d
    | _, _ => d
  else d

/-! ## Governance (src/governance/Proposal.js, src/governance/Voting.js) -/

/-- Proposal status enumeration. -/
inductive ProposalStatus where
  | deposit_period
  | voting_period
  | passed
  | rejected
  | failed
deriving DecidableEq, Repr

/-- Proposal type enumeration. -/
inductive ProposalType where
  | text
  | parameter_change
  | software_upgrade
  | spend_pool
deriving DecidableEq, Repr

/-- The `finalTallyResult` record of weighted sums. -/
structure Tally where
  yes : Int
  no : Int
  noWithVeto : Int
  abstain : Int
deriving DecidableEq, Repr

/-- Fields read from the opaque `content` object by `executeParameterChange`
(`module`, `parameter`, `value`) and `executeSpendPool` (`recipient`, `amount`). -/
structure PContent where
  module : String
  parameter : String
  value : Int
  recipient : Option String
  amount : Int
deriving DecidableEq, Repr

/-- Proposal record (the fields the embedded operations read and write). -/
structure Proposal where
  id : Int
  proposer : String
  type : ProposalType
  status : ProposalStatus
  submitTime : Int
  depositEndTime : Int
  votingStartTime : Option Int
  votingEndTime : Option Int
  totalDeposit : Int
  minDeposit : Int
  deposits : List (String × Int)
  finalTallyResult : Tally
  quorum : ℚ
  threshold : ℚ
  vetoThreshold : ℚ
  content : PContent
deriving DecidableEq, Repr

/-- Total tallied weight `yes + no + noWithVeto + abstain`. -/
def tallyTotal (p : Proposal) : Int :=
  p.finalTallyResult.yes + p.finalTallyResult.no + p.finalTallyResult.noWithVeto
    + p.finalTallyResult.abstain

/-- Terminal status computed by `Proposal.endVoting` once it commits. The total
stakeable supply is the constant 1,000,000 the code assumes
(`const totalStake = 1000000`). JavaScript evaluates `noWithVeto / totalVotes` and
`yes / (yes + noVotes)` as floats whose comparisons with the thresholds are exact
here because every divisor is tested for zero first: with a zero divisor the ratio
is NaN and the `>=` comparison is false, which the explicit conjuncts reproduce. -/
def endVotingStatus (p : Proposal) : ProposalStatus :=
  let totalVotes : Int := tallyTotal p
  let totalStake : Int := 1000000
  let turnout : ℚ := (totalVotes : ℚ) / (totalStake : ℚ)
  if turnout < p.quorum then .failed
  else if totalVotes ≠ 0 ∧ p.vetoThreshold ≤ (p.finalTallyResult.noWithVeto : ℚ) / (totalVotes : ℚ) then
    .rejected
  else
    let yesVotes : Int := p.finalTallyResult.yes
    let noVotes : Int := p.finalTallyResult.no + p.finalTallyResult.noWithVeto
    if yesVotes + noVotes ≠ 0 ∧ p.threshold ≤ (yesVotes : ℚ) / ((yesVotes : ℚ) + (noVotes : ℚ)) then
      .passed
    else .rejected

/-- `Proposal.endVoting`: a no-op unless the proposal is in `voting_period`. -/
def Proposal.endVoting (p : Proposal) : Proposal :=
  if p.status ≠ ProposalStatus.voting_period then p
  else { p with status := endVotingStatus p }

/-- Governance parameters held by `GovernanceManager.params`. -/
structure GovParams where
  minDeposit : Int
  maxDepositPeriod : Int
  votingPeriod : Int
  quorum : ℚ
  threshold : ℚ
  vetoThreshold : ℚ
  burnVoteVeto : Bool
  burnProposalDepositPrevote : Bool
deriving DecidableEq, Repr

/-- The slice of mutable state `executeProposal` can reach: the blockchain fields
`updateBlockchainParams` assigns, the ledger it credits, and the governance
parameter map. -/
structure GovState where
  balances : Balances
  chainDifficulty : Int
  chainBlockTime : Int
  chainMaxBlockSize : Int
  chainMiningReward : Int
  params : GovParams
deriving DecidableEq, Repr

/-- `updateBlockchainParams`: assign the named blockchain field; an unknown name
throws, which `executeProposal` catches (no state change). -/
def updateBlockchainParams (parameter : String) (value : Int) (s : GovState) : GovState :=
  if parameter = "difficulty" then { s with chainDifficulty := value }
  else if parameter = "blockTime" then { s with chainBlockTime := value }
  else if parameter = "maxBlockSize" then { s with chainMaxBlockSize := value }
  else if parameter = "miningReward" then { s with chainMiningReward := value }
  else s

/-- The own-property assignment `this.params[parameter] = value` on the parameter
record. Numeric values are assigned as given; the two boolean parameters receive the
JavaScript truthiness of the numeric value. -/
def assignGovParam (parameter : String) (value : Int) (P : GovParams) : GovParams :=
  if parameter = "minDeposit" then { P with minDeposit := value }
  else if parameter = "maxDepositPeriod" then { P with maxDepositPeriod := value }
  else if parameter = "votingPeriod" then { P with votingPeriod := value }
  else if parameter = "quorum" then { P with quorum := (value : ℚ) }
  else if parameter = "threshold" then { P with threshold := (value : ℚ) }
  else if parameter = "vetoThreshold" then { P with vetoThreshold := (value : ℚ) }
  else if parameter = "burnVoteVeto" then { P with burnVoteVeto := value ≠ 0 }
  else if parameter = "burnProposalDepositPrevote" then
    { P with burnProposalDepositPrevote := value ≠ 0 }
  else P

/-- `updateGovernanceParams`: assign the named own-property of `params`; unknown
names throw (caught upstream, leaving the state unchanged, which the trailing
identity branch of `assignGovParam` renders). -/
def updateGovernanceParams (parameter : String) (value : Int) (s : GovState) : GovState :=
  { s with params := assignGovParam parameter value s.params }

/-- `executeParameterChange`, dispatching on `content.module`. The `staking` branch
calls `this.blockchain.validatorManager.updateParams(...)`, a method that does not
exist on the `Validator` class the manager is constructed from, so it throws a
TypeError that `executeProposal` catches — no state change. Unknown modules likewise
throw and are caught. -/
def executeParameterChange (p : Proposal) (s : GovState) : GovState :=
  if p.content.module = "blockchain" then
    updateBlockchainParams p.content.parameter p.content.value s
  else if p.content.module = "governance" then
    updateGovernanceParams p.content.parameter p.content.value s
  else s

/-- `executeSpendPool`: credit the recipient directly (`getBalance` then
`balances.set(recipient, current + amount)`); the "community pool" is not debited
anywhere and `totalSupply` is untouched. -/
def executeSpendPool (p : Proposal) (s : GovState) : GovState :=
  let current := alGet s.balances p.content.recipient
  { s with balances := alSet s.balances p.content.recipient (current + p.content.amount) }

/-- `refundDeposits`: refunds only when the status is `failed`; the
`rejected && burnProposalDepositPrevote` branch only logs. -/
def refundDeposits (p : Proposal) (s : GovState) : GovState :=
  if p.status = ProposalStatus.failed then
    p.deposits.foldl
      (fun acc d => { acc with balances := alSet acc.balances (some d.1) (alGet acc.balances (some d.1) + d.2) }) s
  else s

/-- `executeProposal`: a no-op unless the proposal's status is `passed` (and the
status is never changed by execution). Dispatches by type, then runs
`refundDeposits` — a no-op for a `passed` proposal. Text and software-upgrade
proposals mutate nothing. -/
def executeProposal (p : Proposal) (s : GovState) : GovState :=
  if p.status ≠ ProposalStatus.passed then s
  else
    let s1 :=
      match p.type with
      | .parameter_change => executeParameterChange p s
      | .software_upgrade => s
      | .spend_pool => executeSpendPool p s
      | .text => s
    refundDeposits p s1

/-! ## Validator (src/consensus/Validator.js) -/

/-- A slashing-event record. -/
structure SlashEvent where
  timestamp : Int
  reason : String
  amount : JNum
  height : Int
deriving DecidableEq, Repr

/-- Validator record. `stake`, `selfStake`, `totalDelegated` and `votingPower` are
`JNum` because `jail` computes
`Math.floor(this.stake * config.CONSENSUS.SLASHING_FRACTION)` with a config key that
does not exist (src/config.js defines no `CONSENSUS.SLASHING_FRACTION`), so the
slash amount is NaN and NaN then propagates through the stake arithmetic. -/
structure Validator where
  address : String
  stake : JNum
  commission : ℚ
  description : String
  jailed : Bool
  status : String
  missedBlocks : Int
  blocksProposed : Int
  blocksValidated : Int
  totalRewards : JNum
  delegators : List (String × Int)
  totalDelegated : JNum
  selfStake : JNum
  votingPower : JNum
  slashingEvents : List SlashEvent
deriving DecidableEq, Repr

/-- `calculateVotingPower`: `this.stake + this.totalDelegated` — note `stake`, not
`selfStake`. -/
def Validator.calculateVotingPower (v : Validator) : JNum :=
  jadd v.stake v.totalDelegated

/-- The `Validator` constructor. -/
def Validator.create (address : String) (stake : Int) (commission : ℚ)
    (description : String) : Validator :=
  { address := address, stake := some stake, commission := commission
    description := description, jailed := false, status := "active", missedBlocks := 0
    blocksProposed := 0, blocksValidated := 0, totalRewards := some 0, delegators := []
    totalDelegated := some 0, selfStake := some stake
    votingPower := jadd (some stake) (some 0), slashingEvents := [] }

/-- `addDelegation`. -/
def Validator.addDelegation (v : Validator) (delegatorAddress : String) (amount : Int) :
    Validator :=
  let current := alGet v.delegators delegatorAddress
  let v1 := { v with delegators := alSet v.delegators delegatorAddress (current + amount),
                     totalDelegated := jadd v.totalDelegated (some amount) }
  { v1 with votingPower := Validator.calculateVotingPower v1 }

/-- `removeDelegation`; `none` models the thrown insufficient-delegation error (the
throw happens before any mutation, so the object is unchanged). -/
def Validator.removeDelegation (v : Validator) (delegatorAddress : String) (amount : Int) :
    Option Validator :=
  let current := alGet v.delegators delegatorAddress
  if current < amount then none
  else
    let newDelegation := current - amount
    let dl :=
      if newDelegation = 0 then v.delegators.filter (fun p => ¬ (p.1 == delegatorAddress))
      else alSet v.delegators delegatorAddress newDelegation
    let v1 := { v with delegators := dl, totalDelegated := jsub v.totalDelegated (some amount) }
    some { v1 with votingPower := Validator.calculateVotingPower v1 }

/-- `addSelfStake`. -/
def Validator.addSelfStake (v : Validator) (amount : Int) : Validator :=
  let v1 := { v with selfStake := jadd v.selfStake (some amount),
                     stake := jadd v.stake (some amount) }
  { v1 with votingPower := Validator.calculateVotingPower v1 }

/-- `removeSelfStake`; the insufficient-stake guard is a JavaScript `<` comparison
(false on NaN). The trailing minimum-stake demotion compares against the missing
config key `MIN_VALIDATOR_STAKE` (`stake < undefined` is false), so the status is
never demoted here. -/
def Validator.removeSelfStake (v : Validator) (amount : Int) : Option Validator :=
  if jltB v.selfStake (some amount) then none
  else
    let v1 := { v with selfStake := jsub v.selfStake (some amount),
                       stake := jsub v.stake (some amount) }
    some { v1 with votingPower := Validator.calculateVotingPower v1 }

/-- `jail`: sets the flag and status, slashes `stake` (but NOT `selfStake`) by
`Math.floor(stake * SLASHING_FRACTION)` — NaN, since the config key is missing —
recomputes the voting power and appends the slashing event. -/
def Validator.jail (now : Int) (v : Validator) (reason : String) : Validator :=
  let v1 := { v with jailed := true, status := "jailed" }
  let slashingAmount : JNum := none
  let v2 := { v1 with stake := jsub v1.stake slashingAmount }
  let v3 := { v2 with votingPower := Validator.calculateVotingPower v2 }
  { v3 with slashingEvents := v3.slashingEvents
      ++ [{ timestamp := now, reason := reason, amount := slashingAmount, height := 0 }] }

/-- `unjail`; throws when not jailed. The cooldown guard compares the elapsed time
against the missing config key `JAIL_TIME` (`x < undefined` is false), so it never
rejects. -/
def Validator.unjail (v : Validator) : Option Validator :=
  if ¬ v.jailed then none
  else some { v with jailed := false, status := "active", missedBlocks := 0 }

/-- `deactivate`: sets the status to `inactive` unconditionally — the `jailed` flag
is left as it was. -/
def Validator.deactivate (v : Validator) : Validator :=
  { v with status := "inactive" }

/-- `activate`; throws when jailed. The minimum-stake guard compares against the
missing config key `MIN_VALIDATOR_STAKE` (false on undefined), so it never rejects. -/
def Validator.activate (v : Validator) : Option Validator :=
  if v.jailed then none
  else some { v with status := "active" }

/-- `onMissedBlock`: increments the counter; the auto-jail threshold is the missing
config key `DOWNTIME_THRESHOLD` (`missedBlocks >= undefined` is false), so the
auto-jail never fires. -/
def Validator.onMissedBlock (v : Validator) : Validator :=
  { v with missedBlocks := v.missedBlocks + 1 }

/-! ## Spec-side definitions (for refinement comparisons) and summation helpers -/

/-- Sum of all ledger balances. -/
def balSum (m : Balances) : Int := (m.map (fun p => p.2)).sum

/-- Total amount minted by protocol transactions (falsy sender) in a list. -/
def mintedSum : List Transaction → Int
  | [] => 0
  | t :: ts => (if jsTruthy t.fromAddress then 0 else t.amount) + mintedSum ts

/-- Total fees debited from senders (truthy sender) in a list. -/
def feeSum : List Transaction → Int
  | [] => 0
  | t :: ts => (if jsTruthy t.fromAddress then t.fee else 0) + feeSum ts

/-- Total amount of transactions whose `type` is exactly the string
`'mining_reward'` — the only transactions that bump `totalSupply`. -/
def rewardTypedAmount : List Transaction → Int
  | [] => 0
  | t :: ts => (if t.type == JsPrim.str "mining_reward" then t.amount else 0) + rewardTypedAmount ts

/-- Amounts plus fees of the transactions a given address sends within a list. -/
def addrSpend (a : String) (txs : List Transaction) : Int :=
  ((txs.filter (fun t => t.fromAddress == some a)).map (fun t => t.amount + t.fee)).sum

/-- Transaction validity as the spec sentence words it: fields present, positive
amount, non-empty signature, hash match, AND the signature cryptographically
verifying against the hash via the external verifier capability. This is the
claim-side definition, to be compared with `Transaction.isValid` from the source. -/
def specTxValid (verify : String → String → Bool) (H : String → String)
    (tx : Transaction) : Bool :=
  jsTruthy tx.fromAddress && jsTruthy tx.toAddress && decide (0 < tx.amount)
    && (tx.signature ≠ "") && (Transaction.calculateHash H tx == tx.hash)
    && verify tx.hash tx.signature

/-- Terminal tally outcome as the claim words it: turnout below quorum fails;
otherwise a veto ratio at or above the veto threshold rejects; otherwise a yes
ratio over yes+no+veto at or above the pass threshold passes; otherwise rejected.
This is the claim-side definition, to be compared with `endVotingStatus`. -/
def specEndStatus (p : Proposal) : ProposalStatus :=
  let tallied : ℚ := (tallyTotal p : ℚ)
  let veto : ℚ := (p.finalTallyResult.noWithVeto : ℚ)
  let yes : ℚ := (p.finalTallyResult.yes : ℚ)
  let no : ℚ := (p.finalTallyResult.no : ℚ)
  if tallied / 1000000 < p.quorum then .failed
  else if p.vetoThreshold ≤ veto / tallied then .rejected
  else if p.threshold ≤ yes / (yes + no + veto) then .passed
  else .rejected

/-! ## Concrete fixtures for counterexamples and witnesses -/

/-- Concrete stand-in for the opaque SHA-256 capability in closed evaluations. -/
def H0 : String → String := fun s => s

/-- Concrete stand-in for `JSON.stringify(transaction).length` in closed
evaluations (any value far below the 1 MiB budget). -/
def sz0 : Transaction → Int := fun _ => 300

/-- A fresh chain: `new Blockchain()` with the generated genesis id and clock value
fixed. -/
def genesisState : ChainState := Blockchain.init H0 "genesis-block" 0

/-- A second address used by the concrete transactions. -/
def bobAddress : String := "wtf1bob0000000000000000000000000000"

/-- A signed 100-token transfer (fee 2) from the bootstrap address. -/
def cexTransfer : Transaction :=
  Transaction.signTransaction H0 "sig-c1"
    (Transaction.create "tx-c1" 1000 (some genesisAddress) (some bobAddress) 100
      (JsPrim.str "transfer") "\x7b\x7d")

/-- First of two signed 600,000-token transfers from the bootstrap address (which
holds 1,000,000): each passes the admission balance check on its own. -/
def overspendTx1 : Transaction :=
  Transaction.signTransaction H0 "sig-a"
    (Transaction.create "tx-a" 1001 (some genesisAddress) (some bobAddress) 600000
      (JsPrim.str "transfer") "\x7b\x7d")

/-- Second such transfer. -/
def overspendTx2 : Transaction :=
  Transaction.signTransaction H0 "sig-b"
    (Transaction.create "tx-b" 1002 (some genesisAddress) (some bobAddress) 600000
      (JsPrim.str "transfer") "\x7b\x7d")

/-- The chain state after both overspending transfers were admitted to the mempool. -/
def overspendState : ChainState :=
  (addTransaction H0 (addTransaction H0 genesisState overspendTx1).2 overspendTx2).2

/-- A verifier that rejects every signature — the most adversarial instantiation of
the external capability. -/
def rejectAllVerifier : String → String → Bool := fun _ _ => false

/-- A well-formed transfer carrying a signature no verifier would accept. -/
def bogusSigTx : Transaction :=
  Transaction.signTransaction H0 "bogus-signature"
    (Transaction.create "tx-c4" 5 (some "wtf1alice00000000000000000000000000")
      (some bobAddress) 5 (JsPrim.str "transfer") "\x7b\x7d")

/-- Content payload with nothing set. -/
def emptyContent : PContent :=
  { module := "", parameter := "", value := 0, recipient := none, amount := 0 }

/-- A proposal in voting period with 50% turnout, all-yes vote, default parameters. -/
def votingProposal : Proposal :=
  { id := 1, proposer := "wtf1alice00000000000000000000000000", type := .text
    status := .voting_period, submitTime := 0, depositEndTime := 172800000
    votingStartTime := some 0, votingEndTime := some 172800000, totalDeposit := 1000
    minDeposit := 1000, deposits := [("wtf1alice00000000000000000000000000", 1000)]
    finalTallyResult := { yes := 400000, no := 0, noWithVeto := 0, abstain := 100000 }
    quorum := 2 / 5, threshold := 1 / 2, vetoThreshold := 334 / 1000
    content := emptyContent }

/-- A passed community-spend proposal crediting 100 tokens to a recipient. -/
def spendProposal : Proposal :=
  { votingProposal with
    id := 2
    type := .spend_pool
    status := .passed
    content := { module := "", parameter := "", value := 0,
                 recipient := some "wtf1carol00000000000000000000000000", amount := 100 } }

/-- A passed text proposal (executes as a no-op). -/
def textPassedProposal : Proposal :=
  { votingProposal with id := 3, type := .text, status := .passed }

/-- Default governance parameters from the `GovernanceManager` constructor. -/
def defaultGovParams : GovParams :=
  { minDeposit := 1000, maxDepositPeriod := 172800000, votingPeriod := 172800000
    quorum := 2 / 5, threshold := 1 / 2, vetoThreshold := 334 / 1000
    burnVoteVeto := true, burnProposalDepositPrevote := false }

/-- A small governance-reachable state with an empty ledger. -/
def govState0 : GovState :=
  { balances := [], chainDifficulty := 4, chainBlockTime := 60000
    chainMaxBlockSize := 1048576, chainMiningReward := 50, params := defaultGovParams }

/-- A freshly registered validator with self-stake 1000. -/
def validator0 : Validator :=
  Validator.create "wtfvaloper100000000000000000000000000" 1000 (1 / 10) "validator"

/-- That validator immediately after `jail('downtime')`. -/
def jailedValidator : Validator := Validator.jail 5 validator0 "downtime"

/-- The same chain state with the mining flag already up (an in-flight pass). -/
def miningBusyState : ChainState := { genesisState with isMining := true }

/-- A minimal block record with a numeric timestamp and empty payload, as restored
by `Block.deserialize` during `import()`. -/
def rawBlock (i : Nat) : Block :=
  { id := "blk" ++ toString i, timestamp := .num i, transactions := []
    previousHash := "", hash := "", nonce := 0, difficulty := .num 4, validator := none
    height := i, gasUsed := 0, gasLimit := 10000000, transactionCount := 0
    merkleRoot := "", signature := "" }

/-- Ten blocks mined in 9 milliseconds total — far below half the expected time. -/
def fastChain : List Block := (List.range 10).map rawBlock

/-- A state at the retarget boundary (chain length 10) with difficulty already at
10, the maximum `ProofOfWork.calculateDifficulty` would allow. -/
def fastState : ChainState :=
  { chain := fastChain, pendingTransactions := [], miningReward := 50, difficulty := 10
    blockTime := 60000, maxBlockSize := 1048576, balances := [], totalSupply := 0
    totalBlocks := 10, totalTransactions := 0, isMining := false, currentMiner := none }

/-! ## Helper lemmas -/

/-- Writing a key changes the ledger sum by the new value minus the previously read
value (0 for an absent key). -/
theorem balSum_alSet (m : Balances) (k : Option String) (v : Int) :
    balSum (alSet m k v) = balSum m + v - alGet m k := by
  induction m with
  | nil => simp [alSet, alGet, balSum]
  | cons p rest ih =>
    by_cases h : p.1 == k
    · simp [alSet, alGet, h, balSum]
      ring
    · simp [alSet, alGet, h, balSum] at ih ⊢
      omega

/-- Reading back a freshly written key returns the written value. -/
theorem alGet_alSet_self {α : Type} [BEq α] [LawfulBEq α] (m : List (α × Int)) (k : α)
    (v : Int) : alGet (alSet m k v) k = v := by
  induction m with
  | nil => simp [alSet, alGet]
  | cons p rest ih =>
    by_cases h : p.1 == k
    · simp [alSet, alGet, h]
    · simp [alSet, alGet, h, ih]

/-- A single `updateBalances` step changes the ledger sum by `-fee` for a
sender-bearing transaction and by `+amount` for a protocol-minted one. -/
theorem balSum_applyTx (st : ChainState) (t : Transaction) :
    balSum (applyTx st t).balances
      = balSum st.balances + (if jsTruthy t.fromAddress then -t.fee else t.amount) := by
  by_cases h : jsTruthy t.fromAddress
  · by_cases hr : t.type == JsPrim.str "mining_reward" <;>
      simp [applyTx, h, hr, balSum_alSet] <;> ring
  · by_cases hr : t.type == JsPrim.str "mining_reward" <;>
      simp [applyTx, h, hr, balSum_alSet] <;> ring

/-- A single `updateBalances` step bumps `totalSupply` exactly for transactions
typed (strictly) `'mining_reward'`. -/
theorem totalSupply_applyTx (st : ChainState) (t : Transaction) :
    (applyTx st t).totalSupply
      = st.totalSupply + (if t.type == JsPrim.str "mining_reward" then t.amount else 0) := by
  by_cases h : jsTruthy t.fromAddress <;>
    by_cases hr : t.type == JsPrim.str "mining_reward" <;>
      simp [applyTx, h, hr]

/-- Ledger-sum characterization of `updateBalances` over a whole list. -/
theorem updateBalances_balSum (txs : List Transaction) :
    ∀ st : ChainState, balSum (updateBalances txs st).balances
      = balSum st.balances + mintedSum txs - feeSum txs := by
  induction txs with
  | nil => intro st; simp [updateBalances, mintedSum, feeSum]
  | cons t ts ih =>
    intro st
    have step : updateBalances (t :: ts) st = updateBalances ts (applyTx st t) := rfl
    rw [step, ih (applyTx st t), balSum_applyTx]
    by_cases h : jsTruthy t.fromAddress <;> simp [mintedSum, feeSum, h] <;> ring

/-- Supply characterization of `updateBalances` over a whole list. -/
theorem updateBalances_totalSupply (txs : List Transaction) :
    ∀ st : ChainState, (updateBalances txs st).totalSupply
      = st.totalSupply + rewardTypedAmount txs := by
  induction txs with
  | nil => intro st; simp [updateBalances, rewardTypedAmount]
  | cons t ts ih =>
    intro st
    have step : updateBalances (t :: ts) st = updateBalances ts (applyTx st t) := rfl
    rw [step, ih (applyTx st t), totalSupply_applyTx]
    by_cases hr : t.type == JsPrim.str "mining_reward"
    · simp [rewardTypedAmount, hr]
      ring
    · simp [rewardTypedAmount, hr]

/-- With non-negative amounts, the reward-typed total is non-negative. -/
theorem rewardTypedAmount_nonneg (txs : List Transaction)
    (h : ∀ t ∈ txs, 0 ≤ t.amount) : 0 ≤ rewardTypedAmount txs := by
  induction txs with
  | nil => simp [rewardTypedAmount]
  | cons t ts ih =>
    have ht := h t (List.mem_cons_self t ts)
    have hts := ih (fun x hx => h x (List.mem_cons_of_mem t hx))
    by_cases hr : t.type == JsPrim.str "mining_reward" <;>
      simp [rewardTypedAmount, hr] <;> omega

/-! ## C1 -/

/-- C1 (amended). Block application does NOT conserve `sum(balances) == totalSupply`.
The true characterization: applying `updateBalances` changes the ledger sum by the
minted (null-sender) amounts minus the fees of sender-bearing transactions — fees
are debited but credited nowhere — while `totalSupply` grows only by the amounts of
transactions whose `type` is strictly the string `'mining_reward'` (the reward
transactions the miner synthesizes carry the number `0` there). `totalSupply` never
decreases as long as amounts are non-negative. -/
theorem conservation_corrected_delta (txs : List Transaction) (st : ChainState) :
    balSum (updateBalances txs st).balances
        = balSum st.balances + mintedSum txs - feeSum txs
    ∧ (updateBalances txs st).totalSupply = st.totalSupply + rewardTypedAmount txs
    ∧ ((∀ t ∈ txs, 0 ≤ t.amount) →
        st.totalSupply ≤ (updateBalances txs st).totalSupply) := by
  refine ⟨updateBalances_balSum txs st, updateBalances_totalSupply txs st, fun h => ?_⟩
  have := rewardTypedAmount_nonneg txs h
  rw [updateBalances_totalSupply txs st]
  omega

/-- C1 witness: the characterization evaluated on a fee-2 transfer applied to the
genesis ledger. -/
theorem conservation_corrected_delta_witness :
    balSum (updateBalances [cexTransfer] genesisState).balances
        = balSum genesisState.balances + mintedSum [cexTransfer] - feeSum [cexTransfer]
    ∧ (updateBalances [cexTransfer] genesisState).totalSupply
        = genesisState.totalSupply + rewardTypedAmount [cexTransfer]
    ∧ genesisState.totalSupply ≤ (updateBalances [cexTransfer] genesisState).totalSupply :=
  ⟨(conservation_corrected_delta [cexTransfer] genesisState).1,
   (conservation_corrected_delta [cexTransfer] genesisState).2.1,
   (conservation_corrected_delta [cexTransfer] genesisState).2.2 (by decide)⟩

/-- C1 counterexample: after applying a single valid 100-token, fee-2 transfer to
the genesis ledger, the balance sum (999,998) no longer equals `totalSupply`
(still 1,000,000) — conservation fails at the very first block application. -/
theorem conservation_violated_at_transfer :
    balSum (updateBalances [cexTransfer] genesisState).balances
      ≠ (updateBalances [cexTransfer] genesisState).totalSupply := by decide

/-! ## C2 -/

/-- Everything `selectTransactionsForBlock` emits passed `validateTransaction`. -/
theorem mem_selectGo (H : String → String) (sz : Transaction → Int) (st : ChainState) :
    ∀ (l : List Transaction) (used : Int) (t : Transaction),
      t ∈ selectGo H sz st l used → validateTransaction H st t = true := by
  intro l
  induction l with
  | nil => intro used t h; simp [selectGo] at h
  | cons x xs ih =>
    intro used t h
    unfold selectGo at h
    split at h
    · simp at h
    · split at h
      · rcases List.mem_cons.mp h with rfl | hm
        · assumption
        · exact ih _ _ hm
      · exact ih _ _ h

/-- C2 (amended). Block selection re-validates each candidate only structurally
(fields, `isValid`, duplicate-against-chain): every selected transaction passes
`validateTransaction`, and `validateTransaction` is entirely independent of the
ledger — it reads no balances at all. Hence no per-block overspend bound holds
(see the counterexample). -/
theorem selection_revalidates_without_balances (H : String → String)
    (sz : Transaction → Int) (st : ChainState) (b : Balances) (t : Transaction)
    (hmem : t ∈ selectTransactionsForBlock H sz st) :
    validateTransaction H st t = true
    ∧ validateTransaction H { st with balances := b } t = validateTransaction H st t :=
  ⟨mem_selectGo H sz st _ 0 t hmem, rfl⟩

/-- C2 witness: the first overspending transfer is in the selected set, passes
re-validation, and re-validation ignores even an emptied ledger. -/
theorem selection_revalidates_without_balances_witness :
    validateTransaction H0 overspendState overspendTx1 = true
    ∧ validateTransaction H0 { overspendState with balances := [] } overspendTx1
        = validateTransaction H0 overspendState overspendTx1 :=
  selection_revalidates_without_balances H0 sz0 overspendState [] overspendTx1 (by decide)

/-- C2 counterexample: two 600,000-token transfers (fee 2 each) from the bootstrap
address, which holds 1,000,000, are both admitted to the mempool and BOTH selected
for a single block; their combined amount+fee (1,200,004) exceeds the sender's
prior balance — the claimed per-block bound and the claimed fresh balance check do
not exist. -/
theorem block_overspend_counterexample :
    (addTransaction H0 genesisState overspendTx1).1 = true
    ∧ (addTransaction H0 (addTransaction H0 genesisState overspendTx1).2 overspendTx2).1 = true
    ∧ selectTransactionsForBlock H0 sz0 overspendState = [overspendTx1, overspendTx2]
    ∧ alGet overspendState.balances (some genesisAddress) = 1000000
    ∧ addrSpend genesisAddress (selectTransactionsForBlock H0 sz0 overspendState) = 1200004
    ∧ alGet overspendState.balances (some genesisAddress)
        < addrSpend genesisAddress (selectTransactionsForBlock H0 sz0 overspendState) := by
  refine ⟨by decide, by decide, by decide, by decide, by decide, by decide⟩

/-! ## C3 -/

/-- C3: evaluation of chain construction. Genesis runs exactly once, the chain has
height 1, one bootstrap address holds 1,000,000 and `totalSupply` is 1,000,000, and
the genesis block has empty transactions — but its `previousHash` is `""`, NOT the
intended `"0"`: `createGenesisBlock` passes an options object to the positional
`Block` constructor, which stores that object as the timestamp and falls back to the
default `previousHash = ''`. -/
theorem genesis_construction_evaluated (H : String → String) (gid : String) (now : Int) :
    (Blockchain.init H gid now).chain = [createGenesisBlock H gid now]
    ∧ (createGenesisBlock H gid now).transactions = []
    ∧ (createGenesisBlock H gid now).height = 0
    ∧ (createGenesisBlock H gid now).previousHash = ""
    ∧ (createGenesisBlock H gid now).previousHash ≠ "0"
    ∧ (createGenesisBlock H gid now).timestamp = JsVal.obj
    ∧ (Blockchain.init H gid now).balances = [(some genesisAddress, 1000000)]
    ∧ (Blockchain.init H gid now).totalSupply = 1000000 :=
  ⟨rfl, rfl, rfl, rfl, show ("" : String) ≠ "0" by decide, rfl, rfl, rfl⟩

/-! ## C4 -/

/-- C4 (amended). For a transaction with a non-null sender, `isValid()` returns true
iff the sender string is non-empty, the recipient is truthy, the amount is positive,
the signature is a non-empty string and the recomputed hash equals the stored hash —
and NOTHING more: no cryptographic verification is invoked (the code comments the
check away and returns `true`), so any non-empty signature passes. -/
theorem isValid_no_signature_verification (H : String → String) (tx : Transaction)
    (f : String) (h : tx.fromAddress = some f) :
    Transaction.isValid H tx = true
      ↔ (f ≠ "" ∧ jsTruthy tx.toAddress = true ∧ 0 < tx.amount ∧ tx.signature ≠ ""
          ∧ Transaction.calculateHash H tx = tx.hash) := by
  simp only [Transaction.isValid, h, jsTruthy]
  split_ifs with h1 h2 h3
  · simp only [Bool.false_eq_true, false_iff]
    push_neg at h1 ⊢
    intro hf hto
    rcases h1 with hc | hc | hc
    · exact absurd hf (by simpa using hc)
    · exact absurd hto (by simpa using hc)
    · omega
  · simp only [Bool.false_eq_true, false_iff]
    intro hc
    exact hc.2.2.2.1 h2
  · simp only [Bool.false_eq_true, false_iff]
    intro hc
    exact h3 hc.2.2.2.2
  · push_neg at h1 h3
    simp only [true_iff]
    refine ⟨by simpa using h1.1, by simpa using h1.2.1, by omega, h2, h3⟩

/-- C4 witness: the characterization evaluated at a concrete signed transfer. -/
theorem isValid_no_signature_verification_witness :
    Transaction.isValid H0 bogusSigTx = true
      ↔ ("wtf1alice00000000000000000000000000" ≠ "" ∧ jsTruthy bogusSigTx.toAddress = true
          ∧ 0 < bogusSigTx.amount ∧ bogusSigTx.signature ≠ ""
          ∧ Transaction.calculateHash H0 bogusSigTx = bogusSigTx.hash) :=
  isValid_no_signature_verification H0 bogusSigTx "wtf1alice00000000000000000000000000" rfl

/-- C4 counterexample: a transaction carrying the signature `"bogus-signature"` —
which the verifier capability rejects (`rejectAllVerifier` rejects everything) — is
accepted by `isValid()`, contradicting the claim that no transaction with a
non-verifying signature is accepted. -/
theorem isValid_accepts_nonverifying_signature :
    Transaction.isValid H0 bogusSigTx = true
    ∧ specTxValid rejectAllVerifier H0 bogusSigTx = false := by
  refine ⟨by decide, by decide⟩

/-! ## C5 -/

/-- C5: the terminal status computed when voting ends matches the claimed formula:
turnout (total tallied weight over the 1,000,000 total stakeable supply) below
quorum fails; else a veto share of the tallied weight at or above the veto threshold
rejects; else a yes share of yes+no+veto at or above the pass threshold passes; else
rejected — abstain counting toward turnout but not the pass denominator, veto toward
both. Stated for a proposal actually in voting period with a positive tallied weight
and a positive pass threshold (with zero tallied weight the code compares NaN,
failing the quorum branch anyway whenever the quorum is positive). -/
theorem endVoting_matches_spec_tally (p : Proposal)
    (hs : p.status = ProposalStatus.voting_period)
    (ht : 0 < tallyTotal p) (hth : 0 < p.threshold) :
    (Proposal.endVoting p).status = specEndStatus p := by
  unfold Proposal.endVoting
  rw [if_neg (by simp [hs])]
  show endVotingStatus p = specEndStatus p
  unfold endVotingStatus specEndStatus
  have e1 : (((tallyTotal p : ℚ)) / (((1000000 : Int)) : ℚ) < p.quorum)
      ↔ ((tallyTotal p : ℚ) / 1000000 < p.quorum) := by norm_num
  have e2 : (tallyTotal p ≠ 0
        ∧ p.vetoThreshold ≤ (p.finalTallyResult.noWithVeto : ℚ) / (tallyTotal p : ℚ))
      ↔ (p.vetoThreshold ≤ (p.finalTallyResult.noWithVeto : ℚ) / (tallyTotal p : ℚ)) :=
    ⟨fun h => h.2, fun h => ⟨ne_of_gt ht, h⟩⟩
  have hsum : ((p.finalTallyResult.yes : ℚ)
        + ((p.finalTallyResult.no + p.finalTallyResult.noWithVeto : Int) : ℚ))
      = (p.finalTallyResult.yes : ℚ) + (p.finalTallyResult.no : ℚ)
        + (p.finalTallyResult.noWithVeto : ℚ) := by push_cast; ring
  have e3 : (p.finalTallyResult.yes + (p.finalTallyResult.no + p.finalTallyResult.noWithVeto) ≠ 0
        ∧ p.threshold ≤ (p.finalTallyResult.yes : ℚ)
          / ((p.finalTallyResult.yes : ℚ)
              + ((p.finalTallyResult.no + p.finalTallyResult.noWithVeto : Int) : ℚ)))
      ↔ (p.threshold ≤ (p.finalTallyResult.yes : ℚ)
          / ((p.finalTallyResult.yes : ℚ) + (p.finalTallyResult.no : ℚ)
              + (p.finalTallyResult.noWithVeto : ℚ))) := by
    rw [hsum]
    constructor
    · exact fun h => h.2
    · intro h
      refine ⟨?_, h⟩
      intro hz
      have hzq : (p.finalTallyResult.yes : ℚ) + (p.finalTallyResult.no : ℚ)
          + (p.finalTallyResult.noWithVeto : ℚ) = 0 := by
        have : ((p.finalTallyResult.yes
            + (p.finalTallyResult.no + p.finalTallyResult.noWithVeto) : Int) : ℚ) = 0 := by
          exact_mod_cast congrArg (fun z : Int => (z : ℚ)) hz
        push_cast at this
        linarith
      rw [hzq, div_zero] at h
      exact absurd h (not_le.mpr hth)
  simp only [e1, e2, e3]

/-- C5 witness: a concrete voting-period proposal with 50% turnout (all yes plus
abstain) — both the code and the claimed formula yield `passed`. -/
theorem endVoting_matches_spec_tally_witness :
    (Proposal.endVoting votingProposal).status = specEndStatus votingProposal :=
  endVoting_matches_spec_tally votingProposal rfl (by decide)
    (show (0 : ℚ) < votingProposal.threshold from one_half_pos)

/-! ## C6 -/

/-- For a passed proposal, `refundDeposits` is a no-op (it only refunds on `failed`). -/
theorem refundDeposits_passed (p : Proposal) (s : GovState)
    (h : p.status = ProposalStatus.passed) : refundDeposits p s = s := by
  unfold refundDeposits
  rw [if_neg (by simp [h])]

/-- Assigning the same blockchain parameter twice equals assigning it once. -/
theorem updateBlockchainParams_idem (param : String) (v : Int) (s : GovState) :
    updateBlockchainParams param v (updateBlockchainParams param v s)
      = updateBlockchainParams param v s := by
  unfold updateBlockchainParams
  split_ifs <;> rfl

/-- Assigning the same own-property twice equals assigning it once. -/
theorem assignGovParam_idem (param : String) (v : Int) (P : GovParams) :
    assignGovParam param v (assignGovParam param v P) = assignGovParam param v P := by
  unfold assignGovParam
  split_ifs <;> rfl

/-- Assigning the same governance parameter twice equals assigning it once. -/
theorem updateGovernanceParams_idem (param : String) (v : Int) (s : GovState) :
    updateGovernanceParams param v (updateGovernanceParams param v s)
      = updateGovernanceParams param v s := by
  unfold updateGovernanceParams
  rw [show ({ s with params := assignGovParam param v s.params } : GovState).params
      = assignGovParam param v s.params from rfl]
  rw [assignGovParam_idem]

/-- Setting the same parameter to the same value twice equals setting it once. -/
theorem executeParameterChange_idem (p : Proposal) (s : GovState) :
    executeParameterChange p (executeParameterChange p s) = executeParameterChange p s := by
  unfold executeParameterChange
  split_ifs
  · exact updateBlockchainParams_idem _ _ _
  · exact updateGovernanceParams_idem _ _ _
  · rfl

/-- C6 (amended). `executeProposal` applied twice equals applied once for every
non-`spend_pool` proposal (parameter changes re-assign the same final value, text
and software-upgrade execution mutate nothing, and a non-passed status is a no-op);
but for a passed `spend_pool` proposal every application credits the recipient's
balance again — execution never leaves the `passed` status, so nothing prevents the
double-credit. -/
theorem executeProposal_idempotent_except_spend (p q : Proposal) (s1 s2 : GovState)
    (hp : p.type ≠ ProposalType.spend_pool)
    (hq1 : q.status = ProposalStatus.passed) (hq2 : q.type = ProposalType.spend_pool) :
    executeProposal p (executeProposal p s1) = executeProposal p s1
    ∧ alGet (executeProposal q (executeProposal q s2)).balances q.content.recipient
        = alGet (executeProposal q s2).balances q.content.recipient + q.content.amount := by
  constructor
  · by_cases hst : p.status = ProposalStatus.passed
    · cases htype : p.type with
      | spend_pool => exact absurd htype hp
      | text =>
        have estep : ∀ s : GovState, executeProposal p s = s := by
          intro s
          unfold executeProposal
          rw [if_neg (by simp [hst]), htype]
          exact refundDeposits_passed p _ hst
        rw [estep, estep]
      | software_upgrade =>
        have estep : ∀ s : GovState, executeProposal p s = s := by
          intro s
          unfold executeProposal
          rw [if_neg (by simp [hst]), htype]
          exact refundDeposits_passed p _ hst
        rw [estep, estep]
      | parameter_change =>
        have estep : ∀ s : GovState, executeProposal p s = executeParameterChange p s := by
          intro s
          unfold executeProposal
          rw [if_neg (by simp [hst]), htype]
          exact refundDeposits_passed p _ hst
        rw [estep, estep, executeParameterChange_idem]
    · have estep : ∀ s : GovState, executeProposal p s = s := by
        intro s
        unfold executeProposal
        rw [if_pos hst]
      rw [estep, estep]
  · have estep : ∀ s : GovState, executeProposal q s = executeSpendPool q s := by
      intro s
      unfold executeProposal
      rw [if_neg (by simp [hq1]), hq2]
      exact refundDeposits_passed q _ hq1
    have hsp : ∀ s : GovState, alGet (executeSpendPool q s).balances q.content.recipient
        = alGet s.balances q.content.recipient + q.content.amount := by
      intro s
      unfold executeSpendPool
      exact alGet_alSet_self _ _ _
    rw [estep, estep, hsp]

/-- C6 witness: a passed text proposal executes idempotently, and a passed 100-token
community-spend proposal credits the recipient another 100 on the second execution. -/
theorem executeProposal_idempotent_except_spend_witness :
    executeProposal textPassedProposal (executeProposal textPassedProposal govState0)
        = executeProposal textPassedProposal govState0
    ∧ alGet (executeProposal spendProposal (executeProposal spendProposal govState0)).balances
          spendProposal.content.recipient
        = alGet (executeProposal spendProposal govState0).balances
            spendProposal.content.recipient + spendProposal.content.amount :=
  executeProposal_idempotent_except_spend textPassedProposal spendProposal govState0
    govState0 (by decide) rfl rfl

/-- C6 counterexample: executing the passed 100-token `spend_pool` proposal twice
leaves the recipient with 200, not 100 — the net effect of two applications differs
from one, contradicting the claimed idempotence. -/
theorem spend_pool_double_credit :
    alGet (executeProposal spendProposal (executeProposal spendProposal govState0)).balances
        spendProposal.content.recipient
      ≠ alGet (executeProposal spendProposal govState0).balances
          spendProposal.content.recipient := by decide

/-! ## C7 -/

/-- The voting-power bookkeeping invariant the code actually maintains:
`votingPower == stake + totalDelegated` (with JavaScript number semantics). -/
def VInv (v : Validator) : Prop := v.votingPower = jadd v.stake v.totalDelegated

/-- C7 (amended). After every registry operation the invariant that holds is
`votingPower == stake + totalDelegated` — `stake`, not `selfStake`, the two
coinciding only until the first slash, and with NaN propagating after a jail (the
slashing fraction is read from a missing config key). Jailing does establish
`jailed = true` and `status = 'jailed'`; the claimed implication `jailed == true ⇒
status == jailed` is not preserved by `deactivate` (see the counterexample). -/
theorem votingPower_tracks_stake (v : Validator) (addr d : String) (stk : Int)
    (comm : ℚ) (desc : String) (amt now : Int) (reason : String) (hv : VInv v) :
    VInv (Validator.create addr stk comm desc)
    ∧ VInv (Validator.addDelegation v d amt)
    ∧ (∀ w ∈ Validator.removeDelegation v d amt, VInv w)
    ∧ VInv (Validator.addSelfStake v amt)
    ∧ (∀ w ∈ Validator.removeSelfStake v amt, VInv w)
    ∧ VInv (Validator.jail now v reason)
    ∧ (∀ w ∈ Validator.unjail v, VInv w)
    ∧ VInv (Validator.deactivate v)
    ∧ (∀ w ∈ Validator.activate v, VInv w)
    ∧ VInv (Validator.onMissedBlock v)
    ∧ (Validator.jail now v reason).jailed = true
    ∧ (Validator.jail now v reason).status = "jailed" := by
  refine ⟨rfl, rfl, ?_, rfl, ?_, rfl, ?_, hv, ?_, hv, rfl, rfl⟩
  · intro w hw
    unfold Validator.removeDelegation at hw
    dsimp only at hw
    split at hw
    · simp at hw
    · simp only [Option.mem_def, Option.some.injEq] at hw
      subst hw
      rfl
  · intro w hw
    unfold Validator.removeSelfStake at hw
    dsimp only at hw
    split at hw
    · simp at hw
    · simp only [Option.mem_def, Option.some.injEq] at hw
      subst hw
      rfl
  · intro w hw
    unfold Validator.unjail at hw
    split at hw
    · simp at hw
    · simp only [Option.mem_def, Option.some.injEq] at hw
      subst hw
      exact hv
  · intro w hw
    unfold Validator.activate at hw
    split at hw
    · simp at hw
    · simp only [Option.mem_def, Option.some.injEq] at hw
      subst hw
      exact hv

/-- C7 witness: the per-operation invariant evaluated on a freshly registered
validator with self-stake 1000. -/
theorem votingPower_tracks_stake_witness :
    VInv (Validator.create "a" 500 (1 / 10) "d")
    ∧ VInv (Validator.addDelegation validator0 "del" 25)
    ∧ (∀ w ∈ Validator.removeDelegation validator0 "del" 25, VInv w)
    ∧ VInv (Validator.addSelfStake validator0 25)
    ∧ (∀ w ∈ Validator.removeSelfStake validator0 25, VInv w)
    ∧ VInv (Validator.jail 7 validator0 "why")
    ∧ (∀ w ∈ Validator.unjail validator0, VInv w)
    ∧ VInv (Validator.deactivate validator0)
    ∧ (∀ w ∈ Validator.activate validator0, VInv w)
    ∧ VInv (Validator.onMissedBlock validator0)
    ∧ (Validator.jail 7 validator0 "why").jailed = true
    ∧ (Validator.jail 7 validator0 "why").status = "jailed" :=
  votingPower_tracks_stake validator0 "a" "del" 500 (1 / 10) "d" 25 7 "why" rfl

/-- C7 counterexample: after `jail` the claimed equation
`votingPower == selfStake + totalDelegated` is false (the slash reduced `stake` —
to NaN, the slashing fraction being a missing config key — but left `selfStake`
untouched), and `deactivate` on the jailed validator yields `jailed = true` with
`status = 'inactive'`, falsifying `jailed ⇒ status == jailed`. -/
theorem jail_breaks_selfStake_equation :
    jailedValidator.votingPower ≠ jadd jailedValidator.selfStake jailedValidator.totalDelegated
    ∧ (Validator.deactivate jailedValidator).jailed = true
    ∧ (Validator.deactivate jailedValidator).status ≠ "jailed" := by
  refine ⟨by decide, by decide, by decide⟩

/-! ## C8 -/

/-- C8: mutual exclusion and unconditional flag release. A mine call against a state
whose `isMining` flag is up fails with `AlreadyMining` and changes nothing; a mine
call that enters the body (flag down) exits — on every path, the one reachable
failure path included — with `isMining` cleared and `currentMiner` reset, so a
completed call never blocks a subsequent one. -/
theorem mining_mutex_and_flag_clear (H : String → String) (sz : Transaction → Int)
    (rid bid : String) (now powNonce : Int) (m1 m2 : String) (s1 s2 : ChainState)
    (h1 : s1.isMining = true) (h2 : s2.isMining = false) :
    minePendingTransactions H sz rid bid now powNonce s1 m1
        = (Except.error MineErr.alreadyMining, s1)
    ∧ (minePendingTransactions H sz rid bid now powNonce s2 m2).2.isMining = false
    ∧ (minePendingTransactions H sz rid bid now powNonce s2 m2).2.currentMiner = none := by
  refine ⟨?_, ?_, ?_⟩
  · unfold minePendingTransactions
    rw [if_pos (by simp [h1])]
  · unfold minePendingTransactions
    rw [if_neg (by simp [h2])]
    dsimp only
    split <;> rfl
  · unfold minePendingTransactions
    rw [if_neg (by simp [h2])]
    dsimp only
    split <;> rfl

/-- C8 witness: a call against the busy genesis state observes `AlreadyMining` with
the state untouched; a call against the idle genesis state exits (via the
invalid-block failure path) with the flag cleared. -/
theorem mining_mutex_and_flag_clear_witness :
    minePendingTransactions H0 sz0 "rid" "bid" 7 3 miningBusyState "m1"
        = (Except.error MineErr.alreadyMining, miningBusyState)
    ∧ (minePendingTransactions H0 sz0 "rid" "bid" 7 3 genesisState "m2").2.isMining = false
    ∧ (minePendingTransactions H0 sz0 "rid" "bid" 7 3 genesisState "m2").2.currentMiner = none :=
  mining_mutex_and_flag_clear H0 sz0 "rid" "bid" 7 3 "m1" "m2" miningBusyState genesisState
    rfl rfl

/-! ## C9 -/

/-- C9 (amended). The every-10-blocks retarget `Blockchain.adjustDifficulty`
compares the total time of the last 10 blocks against `blockTime * 10`: below half,
the difficulty is incremented WITHOUT any upper cap; above double, it is
decremented with a floor of 1; otherwise (boundaries included) unchanged. The
companion `ProofOfWork.calculateDifficulty` — given at least 10 recent blocks, a
numeric current difficulty and the per-gap average inter-block time — is the one
that caps the increment at 10 and floors the decrement at 1, again leaving exact
boundary ratios unchanged. -/
theorem difficulty_retarget_characterization
    (st : ChainState) (b0 b9 : Block) (t : Int)
    (hlen : st.chain.length % 10 = 0) (hpos : 0 < st.chain.length)
    (h9 : (st.chain.drop (st.chain.length - 10)).get? 9 = some b9)
    (h0 : (st.chain.drop (st.chain.length - 10)).get? 0 = some b0)
    (hts : jsValSub b9.timestamp b0.timestamp = some t)
    (d targetTime : Int) (blocks : List Block) (fb lb : Block) (u : Int)
    (hblen : 10 ≤ blocks.length)
    (hfb : blocks.get? (blocks.length - 10) = some fb)
    (hlb : blocks.getLast? = some lb)
    (hu : jsValSub lb.timestamp fb.timestamp = some u) :
    (adjustDifficulty st).difficulty
      = (if (t : ℚ) < ((st.blockTime * 10 : Int) : ℚ) / 2 then st.difficulty + 1
         else if ((st.blockTime * 10 : Int) : ℚ) * 2 < (t : ℚ) then max 1 (st.difficulty - 1)
         else st.difficulty)
    ∧ calculateDifficulty (some d) targetTime blocks
      = (if ((u : ℚ) / 9) / (targetTime : ℚ) < 1 / 2 then some (min (d + 1) 10)
         else if 2 < ((u : ℚ) / 9) / (targetTime : ℚ) then some (max (d - 1) 1)
         else some d) := by
  constructor
  · unfold adjustDifficulty
    rw [if_pos ⟨hlen, hpos⟩]
    dsimp only
    rw [h9, h0]
    dsimp only
    rw [hts]
    dsimp only
    split_ifs <;> rfl
  · unfold calculateDifficulty
    rw [if_neg (by omega), if_pos hblen]
    dsimp only
    rw [hfb, hlb]
    dsimp only
    rw [hu]
    dsimp only
    split_ifs <;> rfl

/-- C9 witness: the characterization evaluated on ten blocks spanning 9
milliseconds (far below half the target) at difficulty 10. -/
theorem difficulty_retarget_characterization_witness :
    (adjustDifficulty fastState).difficulty
      = (if ((9 : Int) : ℚ) < ((fastState.blockTime * 10 : Int) : ℚ) / 2
          then fastState.difficulty + 1
         else if ((fastState.blockTime * 10 : Int) : ℚ) * 2 < ((9 : Int) : ℚ)
          then max 1 (fastState.difficulty - 1)
         else fastState.difficulty)
    ∧ calculateDifficulty (some 10) 5000 fastChain
      = (if (((9 : Int) : ℚ) / 9) / ((5000 : Int) : ℚ) < 1 / 2 then some (min (10 + 1) 10)
         else if 2 < (((9 : Int) : ℚ) / 9) / ((5000 : Int) : ℚ) then some (max (10 - 1) 1)
         else some 10) :=
  difficulty_retarget_characterization fastState (rawBlock 0) (rawBlock 9) 9
    (by decide) (by decide) (by decide) (by decide) (by decide)
    10 5000 fastChain (rawBlock 0) (rawBlock 9) 9
    (by decide) (by decide) (by decide) (by decide)

/-- C9 counterexample: on a 10-block window mined in 9 ms with difficulty already
at 10 — the maximum `calculateDifficulty` enforces — `adjustDifficulty` raises the
difficulty to 11: the every-10-blocks retarget increments with no cap, refuting the
claimed "incremented but capped at a maximum" behaviour (the capped variant,
`calculateDifficulty`, returns 10 on the same data). -/
theorem retarget_exceeds_cap :
    (adjustDifficulty fastState).difficulty = 11
    ∧ calculateDifficulty (some 10) 5000 fastChain = some 10
    ∧ 10 < (adjustDifficulty fastState).difficulty := by
  have h1 : (adjustDifficulty fastState).difficulty = 11 := by
    norm_num [adjustDifficulty, fastState, fastChain, rawBlock, jsValSub, List.range_succ]
  have h2 : calculateDifficulty (some 10) 5000 fastChain = some 10 := by
    norm_num [calculateDifficulty, fastChain, rawBlock, jsValSub, List.range_succ]
  exact ⟨h1, h2, by rw [h1]; norm_num⟩

/-! ## C10 -/

/-- C10: the duplicate check consults only confirmed blocks — `isTransactionExists`
is true exactly when the hash occurs in some chained block's transactions — and a
transaction already sitting in the mempool can therefore be admitted again: a
second submission of a pending transaction succeeds whenever it still validates
against the chain, has funds and the pool has room, leaving two mempool entries
with the same hash. -/
theorem duplicate_check_scans_chain_only :
    (∀ (chain : List Block) (h : String),
        isTransactionExists chain h = true
          ↔ ∃ b ∈ chain, ∃ t ∈ b.transactions, t.hash = h)
    ∧ (∀ (H : String → String) (st : ChainState) (tx : Transaction),
        tx ∈ st.pendingTransactions → validateTransaction H st tx = true →
        tx.amount + tx.fee ≤ alGet st.balances tx.fromAddress →
        st.pendingTransactions.length < 1000 →
        (addTransaction H st tx).1 = true
        ∧ 2 ≤ ((addTransaction H st tx).2.pendingTransactions.filter
              (fun p => p.hash == tx.hash)).length) := by
  constructor
  · intro chain h
    simp [isTransactionExists, List.any_eq_true, beq_iff_eq]
  · intro H st tx hmem hval hbal hlen
    have haddEq : addTransaction H st tx
        = (true, { st with pendingTransactions := st.pendingTransactions ++ [tx] }) := by
      unfold addTransaction
      rw [if_neg (by simp [hval]), if_neg (not_lt.mpr hbal), if_neg (not_le.mpr hlen)]
    refine ⟨by rw [haddEq], ?_⟩
    rw [haddEq]
    have hself : tx ∈ List.filter (fun p => p.hash == tx.hash) st.pendingTransactions :=
      List.mem_filter.mpr ⟨hmem, by simp⟩
    have hpos : 0 < (List.filter (fun p => p.hash == tx.hash) st.pendingTransactions).length :=
      List.length_pos.mpr (fun hnil => by simp [hnil] at hself)
    simp only [List.filter_append, List.length_append]
    have : (List.filter (fun p => p.hash == tx.hash) [tx]).length = 1 := by simp
    omega

/-- C10 witness: resubmitting the pending overspend transfer to the chain whose
mempool already holds it succeeds, and the mempool then carries two entries with
its hash. -/
theorem duplicate_check_scans_chain_only_witness :
    (addTransaction H0 (addTransaction H0 genesisState overspendTx1).2 overspendTx1).1 = true
    ∧ 2 ≤ (((addTransaction H0 (addTransaction H0 genesisState overspendTx1).2
            overspendTx1).2.pendingTransactions.filter
          (fun p => p.hash == overspendTx1.hash)).length) :=
  duplicate_check_scans_chain_only.2 H0 (addTransaction H0 genesisState overspendTx1).2
    overspendTx1 (by decide) (by decide) (by decide) (by decide)

end WtfCosmos
